import Mathlib

/-!
Verification of `allele_count_graph.py`.

The script renders a scatter-and-connector chart of paired allele expression
counts grouped by a three-valued genotype classification.  We embed the data
model, the module-level constant tables, and the `create_plot` pipeline as
executable Lean definitions, modelling the matplotlib figure as an explicit
record of emitted drawing commands, and Python `dict` key lookups as
`Option`-valued lookups (a `none` models an uncaught `KeyError`).
-/

namespace AlleleCountGraph

/-- One sample's record: a genotype string and the two allele expression
counts (non-negative integers). -/
structure Record where
  genotype : String
  allele_1_count : Nat
  allele_2_count : Nat
deriving DecidableEq, Repr

/-- A dataset: the JSON object mapping sample identifiers to records,
modelled as an association list in insertion order (Python dicts preserve
insertion order and have unique keys). -/
abbrev Dataset := List (String × Record)

/-- `GENOTYPES = ['hom_ref', 'het', 'hom_alt']` (line 32). -/
def GENOTYPES : List String := ["hom_ref", "het", "hom_alt"]

/-- `GENOTYPE_SPACING = 2` (line 34). -/
def GENOTYPE_SPACING : Nat := 2

/-- `GENOTYPE_COLOURS` (lines 36-40). -/
def GENOTYPE_COLOURS : List (String × String) :=
  [("hom_ref", "blue"), ("het", "orange"), ("hom_alt", "red")]

/-- `GENOTYPE_LABELS` (lines 42-46). -/
def GENOTYPE_LABELS : List (String × String) :=
  [("hom_ref", "Homozygous\nreference"), ("het", "Heterozygous"),
   ("hom_alt", "Homozygous\nalternate")]

/-- `ALLELE_MARKERS` (lines 48-51). -/
def ALLELE_MARKERS : List (String × String) :=
  [("allele_1", "o"), ("allele_2", "x")]

/-- `EXAMPLE_DATA` (lines 53-60). -/
def EXAMPLE_DATA : Dataset :=
  [("1", ⟨"hom_ref", 2, 4⟩),
   ("2", ⟨"hom_ref", 3, 6⟩),
   ("3", ⟨"het", 4, 40⟩),
   ("4", ⟨"het", 5, 39⟩),
   ("5", ⟨"hom_alt", 60, 54⟩),
   ("6", ⟨"hom_alt", 58, 62⟩)]

/-- Python `dict[key]` on a string-to-string table: `some` the value, or
`none` for an uncaught `KeyError`. -/
def dictLookup (table : List (String × String)) (k : String) : Option String :=
  (table.find? fun p => p.1 == k).map fun p => p.2

/-- Python `dict[key]` on the `data_by_genotype` dict (string keys, record
lists as values). -/
def bucketLookup (dbg : List (String × List Record)) (k : String) :
    Option (List Record) :=
  (dbg.find? fun p => p.1 == k).map fun p => p.2

/-- The list comprehension
`[counts[sample] for sample in counts if counts[sample]["genotype"] == genotype]`
(line 85): the records of `counts`, in insertion order, whose genotype equals
`genotype`. -/
def bucket (counts : Dataset) (genotype : String) : List Record :=
  (counts.filter fun p => p.2.genotype == genotype).map fun p => p.2

/-- The dict comprehension building `data_by_genotype` (lines 84-87): one
entry per element of `GENOTYPES`, in that order. -/
def data_by_genotype (counts : Dataset) : List (String × List Record) :=
  GENOTYPES.map fun genotype => (genotype, bucket counts genotype)

/-- A `plt.scatter(xs, ys, color, marker, s)` call. -/
structure ScatterCmd where
  xs : List ℚ
  ys : List Nat
  colour : String
  marker : String
  size : Nat
deriving DecidableEq, Repr

/-- A `plt.plot([x1, x2], [y1, y2], color)` connecting segment. -/
structure SegCmd where
  x1 : ℚ
  x2 : ℚ
  y1 : Nat
  y2 : Nat
  colour : String
deriving DecidableEq, Repr

/-- A `plt.text(x, y, label, color, ...)` call. -/
structure TextCmd where
  x : ℚ
  y : ℚ
  label : String
  colour : String
deriving DecidableEq, Repr

/-- The in-memory figure: the drawing commands and axis state accumulated by
the pyplot calls of `create_plot`. -/
structure Fig where
  scatters : List ScatterCmd := []
  segments : List SegCmd := []
  legendEntries : List String := []
  ylim : Option (Nat × Nat) := none
  texts : List TextCmd := []
  xlabel : Option String := none
  ylabel : Option String := none
  title : Option String := none
  xticksShown : Bool := true
  topSpine : Bool := true
  rightSpine : Bool := true
  facecolor : Option String := none
  gridColor : Option String := none
deriving DecidableEq, Repr

/-- `plt.figure(figsize=(10, 10))` (line 81): a fresh figure. -/
def Fig.init : Fig := {}

/-- The uncaught Python exceptions `create_plot` can raise: a `KeyError` on a
dict lookup, or the `ValueError` of `max()` on an empty sequence (line 119). -/
inductive PlotErr where
  | keyError (k : String)
  | emptyMaxError
deriving DecidableEq, Repr

/-- x position of the allele-1 column of genotype index `i`:
`i * GENOTYPE_SPACING - 0.5` (line 95). -/
def xLeft (i : Nat) : ℚ := ((i * GENOTYPE_SPACING : Nat) : ℚ) - 1/2

/-- x position of the allele-2 column of genotype index `i`:
`i * GENOTYPE_SPACING + 0.5` (line 96). -/
def xRight (i : Nat) : ℚ := ((i * GENOTYPE_SPACING : Nat) : ℚ) + 1/2

/-- One iteration of the plotting loop (lines 91-107) for the pair
`(i, genotype)` produced by `enumerate(GENOTYPES)`: look up the genotype's
bucket, emit the two scatter calls, then the per-sample connecting segments.
Any failing dict lookup aborts with a `KeyError`. -/
def plotGroup (dbg : List (String × List Record)) (fig : Fig) (i : Nat)
    (genotype : String) : Fig × Option PlotErr :=
  match bucketLookup dbg genotype with
  | none => (fig, some (PlotErr.keyError genotype))
  | some data =>
    let x_1 := List.replicate data.length (xLeft i)
    let x_2 := List.replicate data.length (xRight i)
    let y_1 := data.map fun sample => sample.allele_1_count
    let y_2 := data.map fun sample => sample.allele_2_count
    match dictLookup GENOTYPE_COLOURS genotype with
    | none => (fig, some (PlotErr.keyError genotype))
    | some colour =>
      match dictLookup ALLELE_MARKERS "allele_1" with
      | none => (fig, some (PlotErr.keyError "allele_1"))
      | some m1 =>
        match dictLookup ALLELE_MARKERS "allele_2" with
        | none => (fig, some (PlotErr.keyError "allele_2"))
        | some m2 =>
          let fig := { fig with
            scatters := fig.scatters ++
              [ScatterCmd.mk x_1 y_1 colour m1 100,
               ScatterCmd.mk x_2 y_2 colour m2 100] }
          let segs := ((x_1.zip (x_2.zip (y_1.zip y_2))).map
            fun q => SegCmd.mk q.1 q.2.1 q.2.2.1 q.2.2.2 colour)
          ({ fig with segments := fig.segments ++ segs }, none)

/-- The `for i, genotype in enumerate(GENOTYPES)` loop (lines 91-107), run
over the enumerated list; stops at the first uncaught exception. -/
def plotGroups (dbg : List (String × List Record)) :
    Fig → List (Nat × String) → Fig × Option PlotErr
  | fig, [] => (fig, none)
  | fig, (i, genotype) :: rest =>
    match plotGroup dbg fig i genotype with
    | (fig2, some e) => (fig2, some e)
    | (fig2, none) => plotGroups dbg fig2 rest

/-- `plt.legend([...], ["Allele 1", "Allele 2"], ...)` (lines 111-116). -/
def addLegend (fig : Fig) : Fig :=
  { fig with legendEntries := ["Allele 1", "Allele 2"] }

/-- Python `q > acc` on two-element lists `[q.1, q.2]`, `[acc.1, acc.2]`:
lexicographic strict comparison. -/
def lexGt (q acc : Nat × Nat) : Bool :=
  acc.1 < q.1 || (acc.1 == q.1 && acc.2 < q.2)

/-- Python `max` over a sequence of two-element lists `[a1, a2]`: `none` (a
`ValueError`) on the empty sequence, otherwise the lexicographically largest
pair, the earliest one on ties. -/
def pyMaxPairs : List (Nat × Nat) → Option (Nat × Nat)
  | [] => none
  | p :: ps => some (ps.foldl (fun acc q => if lexGt q acc then q else acc) p)

/-- Line 119:
`max(*[max([s["allele_1_count"], s["allele_2_count"]] for s in counts.values())])`.
The inner `max` ranges over the per-sample pairs and compares them
lexicographically; the outer `max` unpacks the single resulting pair and
takes the larger of its two entries. -/
def max_value (counts : Dataset) : Option Nat :=
  (pyMaxPairs (counts.map fun p => (p.2.allele_1_count, p.2.allele_2_count))).map
    fun q => Nat.max q.1 q.2

/-- The label loop (lines 123-132): one `plt.text` per `(i, genotype)` of
`enumerate(GENOTYPES)`, at `(i * GENOTYPE_SPACING, -1)`, with the genotype's
label text and colour. -/
def addLabels (fig : Fig) : List (Nat × String) → Fig × Option PlotErr
  | [] => (fig, none)
  | (i, genotype) :: rest =>
    match dictLookup GENOTYPE_LABELS genotype with
    | none => (fig, some (PlotErr.keyError genotype))
    | some label =>
      match dictLookup GENOTYPE_COLOURS genotype with
      | none => (fig, some (PlotErr.keyError genotype))
      | some colour =>
        addLabels
          { fig with texts := fig.texts ++
              [⟨((i * GENOTYPE_SPACING : Nat) : ℚ), -1, label, colour⟩] }
          rest

/-- Lines 135-151: axis labels, title, tick removal, spines, background and
grid styling. -/
def applyStyling (fig : Fig) : Fig :=
  { fig with
    xlabel := some "Genotype"
    ylabel := some "Allele Count"
    title := some "Allele Counts by Genotype"
    xticksShown := false
    topSpine := false
    rightSpine := false
    facecolor := some "#EAEAF2"
    gridColor := some "white" }

/-- `create_plot(counts)` (lines 80-151).  Returns the dataset as the caller
observes it after the call (the source only ever reads `counts`), the figure
built so far, and the uncaught exception, if any, at which execution
stopped. -/
def create_plot (counts : Dataset) : Dataset × Fig × Option PlotErr :=
  let dbg := data_by_genotype counts
  match plotGroups dbg Fig.init GENOTYPES.enum with
  | (fig, some e) => (counts, fig, some e)
  | (fig, none) =>
    let fig := addLegend fig
    match max_value counts with
    | none => (counts, fig, some PlotErr.emptyMaxError)
    | some m =>
      let fig := { fig with ylim := some (0, m + 10) }
      match addLabels fig GENOTYPES.enum with
      | (fig2, some e) => (counts, fig2, some e)
      | (fig2, none) => (counts, applyStyling fig2, none)

/-- The command-line arguments of `parse_args` (lines 63-69): an optional
input path and the `--save-plot` flag. -/
structure Args where
  input_json : Option String := none
  save_plot : Bool := false

/-- The file writes performed by the `__main__` block (lines 154-162): if
`create_plot` raises, the process dies before `savefig`; otherwise
`plt.savefig("allele_count_graph.png", dpi=300)` runs exactly when
`--save-plot` was given. -/
def mainWrites (args : Args) (counts : Dataset) : List (String × Nat) :=
  match (create_plot counts).2.2 with
  | some _ => []
  | none => if args.save_plot then [("allele_count_graph.png", 300)] else []

/-- Modelled from the spec: "computes the global maximum count across all
samples and all allele slots".  The intended y-axis source value: the maximum
of both allele counts over every sample of the dataset (`none` when the
dataset is empty). -/
def spec_max_count (counts : Dataset) : Option Nat :=
  match counts.map (fun p => Nat.max p.2.allele_1_count p.2.allele_2_count) with
  | [] => none
  | m :: ms => some (ms.foldl Nat.max m)

/-- The two scatter commands one loop iteration emits for genotype index `i`
with colour `colour` over bucket `data`. -/
def scatterPair (i : Nat) (colour : String) (data : List Record) :
    List ScatterCmd :=
  [ScatterCmd.mk (List.replicate data.length (xLeft i))
      (data.map fun sample => sample.allele_1_count) colour "o" 100,
   ScatterCmd.mk (List.replicate data.length (xRight i))
      (data.map fun sample => sample.allele_2_count) colour "x" 100]

/-- The connecting segments one loop iteration emits for genotype index `i`
with colour `colour` over bucket `data` (the `zip` of lines 106-107). -/
def segsFor (i : Nat) (colour : String) (data : List Record) : List SegCmd :=
  (((List.replicate data.length (xLeft i)).zip
      ((List.replicate data.length (xRight i)).zip
        ((data.map fun sample => sample.allele_1_count).zip
          (data.map fun sample => sample.allele_2_count)))).map
    fun q => SegCmd.mk q.1 q.2.1 q.2.2.1 q.2.2.2 colour)

/-- All scatter commands of the plotting loop, bucket by bucket. -/
def allScatters (counts : Dataset) : List ScatterCmd :=
  scatterPair 0 "blue" (bucket counts "hom_ref") ++
  scatterPair 1 "orange" (bucket counts "het") ++
  scatterPair 2 "red" (bucket counts "hom_alt")

/-- All connecting segments of the plotting loop, bucket by bucket. -/
def allSegs (counts : Dataset) : List SegCmd :=
  segsFor 0 "blue" (bucket counts "hom_ref") ++
  segsFor 1 "orange" (bucket counts "het") ++
  segsFor 2 "red" (bucket counts "hom_alt")

/-- The three genotype label texts emitted by lines 123-132. -/
def labelTexts : List TextCmd :=
  [TextCmd.mk 0 (-1) "Homozygous\nreference" "blue",
   TextCmd.mk 2 (-1) "Heterozygous" "orange",
   TextCmd.mk 4 (-1) "Homozygous\nalternate" "red"]

/-- A one-record dataset whose genotype string is not a recognized
category. -/
def BAD_GENOTYPE_DATA : Dataset := [("1", ⟨"hom", 1, 2⟩)]

/-! ## Structural lemmas -/

/-- The plotting loop over `enumerate(GENOTYPES)` never raises and appends
exactly the per-bucket scatter commands and connecting segments. -/
lemma plotGroups_enum_eq (counts : Dataset) (fig : Fig) :
    plotGroups (data_by_genotype counts) fig GENOTYPES.enum =
      ({ fig with
          scatters := fig.scatters ++ allScatters counts,
          segments := fig.segments ++ allSegs counts }, none) := by
  have henum : GENOTYPES.enum = [(0, "hom_ref"), (1, "het"), (2, "hom_alt")] :=
    rfl
  rw [henum]
  simp [plotGroups, plotGroup, data_by_genotype, bucketLookup, dictLookup,
    GENOTYPES, GENOTYPE_COLOURS, ALLELE_MARKERS, List.find?, allScatters,
    allSegs, scatterPair, segsFor]

/-- The label loop over `enumerate(GENOTYPES)` never raises and appends
exactly the three genotype label texts. -/
lemma addLabels_enum_eq (fig : Fig) :
    addLabels fig GENOTYPES.enum =
      ({ fig with texts := fig.texts ++ labelTexts }, none) := by
  have henum : GENOTYPES.enum = [(0, "hom_ref"), (1, "het"), (2, "hom_alt")] :=
    rfl
  rw [henum]
  simp [addLabels, dictLookup, GENOTYPE_LABELS, GENOTYPE_COLOURS,
    List.find?, labelTexts, GENOTYPE_SPACING]

/-- Closed form of `create_plot`: the only uncaught exception is the
`ValueError` of the max computation, and on success the figure carries the
per-bucket scatters and segments, the legend, the y-limits, the labels and
the styling. -/
lemma create_plot_eq (counts : Dataset) :
    create_plot counts =
      (counts,
        match max_value counts with
        | none =>
          (addLegend
            { Fig.init with
                scatters := allScatters counts, segments := allSegs counts },
           some PlotErr.emptyMaxError)
        | some m =>
          (applyStyling
            { addLegend
                { Fig.init with
                    scatters := allScatters counts,
                    segments := allSegs counts } with
                ylim := some (0, m + 10), texts := labelTexts },
           none)) := by
  unfold create_plot
  dsimp only
  rw [plotGroups_enum_eq]
  dsimp only
  cases hm : max_value counts with
  | none => simp [Fig.init]
  | some m =>
    dsimp only
    rw [addLabels_enum_eq]
    simp [Fig.init, addLegend]

/-- A non-empty dataset has a defined (Python) max value. -/
lemma max_value_isSome_of_ne_nil (counts : Dataset) (hne : counts ≠ []) :
    ∃ m, max_value counts = some m := by
  cases counts with
  | nil => exact absurd rfl hne
  | cons p t => exact ⟨_, rfl⟩

/-- The final figure's connecting segments are exactly the per-bucket
segments. -/
lemma create_plot_segments (counts : Dataset) :
    (create_plot counts).2.1.segments = allSegs counts := by
  rw [create_plot_eq]
  cases hm : max_value counts with
  | none => simp [addLegend, Fig.init]
  | some m => simp [addLegend, applyStyling, Fig.init]

/-- The final figure's scatter commands are exactly the per-bucket scatter
pairs. -/
lemma create_plot_scatters (counts : Dataset) :
    (create_plot counts).2.1.scatters = allScatters counts := by
  rw [create_plot_eq]
  cases hm : max_value counts with
  | none => simp [addLegend, Fig.init]
  | some m => simp [addLegend, applyStyling, Fig.init]

/-- Every record of a bucket has that bucket's genotype. -/
lemma genotype_of_mem_bucket {counts : Dataset} {g : String} {r : Record}
    (h : r ∈ bucket counts g) : r.genotype = g := by
  simp only [bucket, List.mem_map, List.mem_filter] at h
  obtain ⟨p, ⟨_, hg⟩, hr⟩ := h
  rw [← hr]
  exact eq_of_beq hg

/-- Every record of the dataset is in the bucket of its own genotype. -/
lemma mem_bucket_self {counts : Dataset} {p : String × Record}
    (h : p ∈ counts) : p.2 ∈ bucket counts p.2.genotype := by
  simp only [bucket, List.mem_map, List.mem_filter]
  exact ⟨p, ⟨h, beq_self_eq_true _⟩, rfl⟩

/-- Each bucket is an order-preserving selection from the dataset's records:
stable grouping. -/
lemma bucket_sublist (counts : Dataset) (g : String) :
    (bucket counts g).Sublist (counts.map fun p => p.2) := by
  unfold bucket
  exact (List.filter_sublist counts).map fun p => p.2

/-- One loop iteration emits exactly `data.length` connecting segments. -/
lemma segsFor_length (i : Nat) (colour : String) (data : List Record) :
    (segsFor i colour data).length = data.length := by
  simp [segsFor]

/-- For a valid dataset the three bucket sizes add up to the dataset size. -/
lemma bucket_length_sum (counts : Dataset)
    (hv : ∀ p ∈ counts, p.2.genotype ∈ GENOTYPES) :
    (bucket counts "hom_ref").length + (bucket counts "het").length +
      (bucket counts "hom_alt").length = counts.length := by
  induction counts with
  | nil => rfl
  | cons p t ih =>
    have hp := hv p (List.mem_cons_self p t)
    have iht := ih fun q hq => hv q (List.mem_cons_of_mem p hq)
    simp only [GENOTYPES, List.mem_cons, List.not_mem_nil, or_false] at hp
    rcases hp with h | h | h <;>
      simp [bucket, List.filter_cons, h] at iht ⊢ <;> omega

/-- A record's mapped value sits in the zip of its bucket's constant-x column
with the mapped bucket. -/
lemma mem_zip_replicate {α β : Type} (f : Record → β) (x : α)
    {data : List Record} {r : Record} (h : r ∈ data) :
    (x, f r) ∈ (List.replicate data.length x).zip (data.map f) := by
  induction data with
  | nil => cases h
  | cons d t ih =>
    rcases List.mem_cons.mp h with h | h
    · subst h
      simp [List.replicate_succ]
    · simp only [List.length_cons, List.replicate_succ, List.map_cons,
        List.zip_cons_cons, List.mem_cons]
      exact Or.inr (ih h)

/-- Each bucket record's connecting segment is among the segments its loop
iteration emits. -/
lemma mem_segsFor {i : Nat} {colour : String} {data : List Record} {r : Record}
    (h : r ∈ data) :
    SegCmd.mk (xLeft i) (xRight i) r.allele_1_count r.allele_2_count colour ∈
      segsFor i colour data := by
  induction data with
  | nil => cases h
  | cons d t ih =>
    have hstep : segsFor i colour (d :: t) =
        SegCmd.mk (xLeft i) (xRight i) d.allele_1_count d.allele_2_count
            colour :: segsFor i colour t := by
      simp [segsFor, List.replicate_succ]
    rw [hstep]
    rcases List.mem_cons.mp h with h | h
    · rw [h]
      exact List.mem_cons_self _ _
    · exact List.mem_cons_of_mem _ (ih h)

/-- The allele-1 column of genotype index `i` sits at `2 * i - 0.5`. -/
lemma xLeft_eq (i : Nat) : xLeft i = 2 * (i : ℚ) - 1/2 := by
  unfold xLeft GENOTYPE_SPACING
  push_cast
  ring

/-- The allele-2 column of genotype index `i` sits at `2 * i + 0.5`. -/
lemma xRight_eq (i : Nat) : xRight i = 2 * (i : ℚ) + 1/2 := by
  unfold xRight GENOTYPE_SPACING
  push_cast
  ring

/-! ## Claim theorems -/

/-- C1.  On the built-in `EXAMPLE_DATA` the code sets the y-axis upper bound
to 70, yet the maximum count across all samples and both allele slots is 62,
so the claimed upper bound would be 72: line 119's inner `max` compares the
per-sample two-element lists lexicographically and keeps the pair
`[60, 54]`, dropping the global maximum 62. -/
theorem ylim_upper_diverges_from_global_max :
    (create_plot EXAMPLE_DATA).2.1.ylim = some (0, 70) ∧
    spec_max_count EXAMPLE_DATA = some 62 ∧ (70 : Nat) ≠ 62 + 10 :=
  ⟨rfl, rfl, by decide⟩

/-- C2 counterexample.  On a dataset whose only record carries the
unrecognized genotype `"hom"`, `create_plot` finishes with no uncaught
exception at all — in particular no key-lookup failure — contradicting the
claim that it must fail. -/
theorem unrecognized_genotype_does_not_fail :
    (create_plot BAD_GENOTYPE_DATA).2.2 = none := rfl

/-- C2 amended.  A record with an unrecognized genotype never causes a
failure: the colour lookups only ever run for the three fixed categories, so
`create_plot` completes without an uncaught exception, and the record is
silently excluded from every genotype bucket (hence never plotted). -/
theorem unrecognized_genotype_silently_dropped (counts : Dataset)
    (p : String × Record) (hp : p ∈ counts)
    (hbad : p.2.genotype ∉ GENOTYPES) :
    (create_plot counts).2.2 = none ∧
    ∀ g ∈ GENOTYPES, p.2 ∉ bucket counts g := by
  constructor
  · obtain ⟨m, hm⟩ :=
      max_value_isSome_of_ne_nil counts (List.ne_nil_of_mem hp)
    rw [create_plot_eq, hm]
  · intro g hg hmem
    exact hbad (genotype_of_mem_bucket hmem ▸ hg)

/-- C2 amended, witness at the concrete one-record dataset. -/
theorem unrecognized_genotype_silently_dropped_witness :
    ("1", Record.mk "hom" 1 2) ∈ BAD_GENOTYPE_DATA ∧
    (Record.mk "hom" 1 2).genotype ∉ GENOTYPES ∧
    ((create_plot BAD_GENOTYPE_DATA).2.2 = none ∧
      ∀ g ∈ GENOTYPES,
        ("1", Record.mk "hom" 1 2).2 ∉ bucket BAD_GENOTYPE_DATA g) :=
  ⟨by decide, by decide,
   unrecognized_genotype_silently_dropped BAD_GENOTYPE_DATA
     ("1", Record.mk "hom" 1 2) (by decide) (by decide)⟩

/-- C3.  On the empty dataset `create_plot` stops with the `ValueError` of
line 119's `max` over the empty sequence of per-sample pairs, and the y-axis
limits have not been set at that point. -/
theorem empty_dataset_fails_at_max_before_ylim :
    max_value [] = none ∧
    (create_plot []).2.2 = some PlotErr.emptyMaxError ∧
    (create_plot []).2.1.ylim = none :=
  ⟨rfl, rfl, rfl⟩

/-- C4.  For a valid dataset the number of connecting segments — one per
plotted point-pair — equals the number of samples. -/
theorem point_pair_count_eq_sample_count (counts : Dataset)
    (hv : ∀ p ∈ counts, p.2.genotype ∈ GENOTYPES) :
    (create_plot counts).2.1.segments.length = counts.length := by
  rw [create_plot_segments]
  simp only [allSegs, List.length_append, segsFor_length]
  exact bucket_length_sum counts hv

/-- C4 witness at `EXAMPLE_DATA`. -/
theorem point_pair_count_eq_sample_count_witness :
    (∀ p ∈ EXAMPLE_DATA, p.2.genotype ∈ GENOTYPES) ∧
    (create_plot EXAMPLE_DATA).2.1.segments.length = EXAMPLE_DATA.length :=
  ⟨by decide, point_pair_count_eq_sample_count EXAMPLE_DATA (by decide)⟩

/-- C5.  For a valid dataset the grouping step has one bucket per fixed
category in the fixed order, places every sample in the bucket of its own
genotype and in no other bucket, and each bucket is an order-preserving
(stable) selection of the dataset's records. -/
theorem grouping_partitions_samples (counts : Dataset)
    (hv : ∀ p ∈ counts, p.2.genotype ∈ GENOTYPES) :
    ((data_by_genotype counts).map fun e => e.1) = GENOTYPES ∧
    (∀ p ∈ counts, p.2.genotype ∈ GENOTYPES ∧
      p.2 ∈ bucket counts p.2.genotype ∧
      ∀ g, p.2 ∈ bucket counts g → g = p.2.genotype) ∧
    (∀ g, (bucket counts g).Sublist (counts.map fun p => p.2)) := by
  refine ⟨by simp [data_by_genotype, Function.comp_def], fun p hp => ?_,
    fun g => bucket_sublist counts g⟩
  exact ⟨hv p hp, mem_bucket_self hp,
    fun g hg => (genotype_of_mem_bucket hg).symm⟩

/-- C5 witness at `EXAMPLE_DATA`. -/
theorem grouping_partitions_samples_witness :
    (∀ p ∈ EXAMPLE_DATA, p.2.genotype ∈ GENOTYPES) ∧
    (((data_by_genotype EXAMPLE_DATA).map fun e => e.1) = GENOTYPES ∧
      (∀ p ∈ EXAMPLE_DATA, p.2.genotype ∈ GENOTYPES ∧
        p.2 ∈ bucket EXAMPLE_DATA p.2.genotype ∧
        ∀ g, p.2 ∈ bucket EXAMPLE_DATA g → g = p.2.genotype) ∧
      (∀ g, (bucket EXAMPLE_DATA g).Sublist
        (EXAMPLE_DATA.map fun p => p.2))) :=
  ⟨by decide, grouping_partitions_samples EXAMPLE_DATA (by decide)⟩

/-- C6.  On the built-in six-sample example every genotype bucket holds
exactly two samples. -/
theorem example_data_two_per_category :
    (bucket EXAMPLE_DATA "hom_ref").length = 2 ∧
    (bucket EXAMPLE_DATA "het").length = 2 ∧
    (bucket EXAMPLE_DATA "hom_alt").length = 2 := by
  decide

/-- C7.  For a valid dataset, every sample of the genotype category at index
`i` has its allele-1 count plotted at `x = 2 * i - 0.5` (marker `"o"`), its
allele-2 count at `x = 2 * i + 0.5` (marker `"x"`), and a straight segment
joining the two x positions; the offsets depend only on `i`. -/
theorem sample_points_at_fixed_offsets (counts : Dataset)
    (_hv : ∀ p ∈ counts, p.2.genotype ∈ GENOTYPES)
    (i : Nat) (g : String) (hg : GENOTYPES.get? i = some g)
    (r : Record) (hr : r ∈ bucket counts g) :
    xLeft i = 2 * (i : ℚ) - 1/2 ∧ xRight i = 2 * (i : ℚ) + 1/2 ∧
    (∃ sc ∈ (create_plot counts).2.1.scatters, sc.marker = "o" ∧
      (xLeft i, r.allele_1_count) ∈ sc.xs.zip sc.ys) ∧
    (∃ sc ∈ (create_plot counts).2.1.scatters, sc.marker = "x" ∧
      (xRight i, r.allele_2_count) ∈ sc.xs.zip sc.ys) ∧
    ∃ c, SegCmd.mk (xLeft i) (xRight i) r.allele_1_count r.allele_2_count c ∈
      (create_plot counts).2.1.segments := by
  rcases i with - | i
  · obtain rfl : g = "hom_ref" := by
      simpa [GENOTYPES] using hg.symm
    refine ⟨xLeft_eq 0, xRight_eq 0,
      ⟨ScatterCmd.mk (List.replicate (bucket counts "hom_ref").length (xLeft 0))
          ((bucket counts "hom_ref").map fun s => s.allele_1_count)
          "blue" "o" 100, ?_, rfl, mem_zip_replicate _ _ hr⟩,
      ⟨ScatterCmd.mk (List.replicate (bucket counts "hom_ref").length (xRight 0))
          ((bucket counts "hom_ref").map fun s => s.allele_2_count)
          "blue" "x" 100, ?_, rfl, mem_zip_replicate _ _ hr⟩,
      "blue", ?_⟩
    · rw [create_plot_scatters]
      simp [allScatters, scatterPair]
    · rw [create_plot_scatters]
      simp [allScatters, scatterPair]
    · rw [create_plot_segments]
      simp only [allSegs]
      exact List.mem_append_left _ (List.mem_append_left _ (mem_segsFor hr))
  rcases i with - | i
  · obtain rfl : g = "het" := by
      simpa [GENOTYPES] using hg.symm
    refine ⟨xLeft_eq 1, xRight_eq 1,
      ⟨ScatterCmd.mk (List.replicate (bucket counts "het").length (xLeft 1))
          ((bucket counts "het").map fun s => s.allele_1_count)
          "orange" "o" 100, ?_, rfl, mem_zip_replicate _ _ hr⟩,
      ⟨ScatterCmd.mk (List.replicate (bucket counts "het").length (xRight 1))
          ((bucket counts "het").map fun s => s.allele_2_count)
          "orange" "x" 100, ?_, rfl, mem_zip_replicate _ _ hr⟩,
      "orange", ?_⟩
    · rw [create_plot_scatters]
      simp [allScatters, scatterPair]
    · rw [create_plot_scatters]
      simp [allScatters, scatterPair]
    · rw [create_plot_segments]
      simp only [allSegs]
      exact List.mem_append_left _ (List.mem_append_right _ (mem_segsFor hr))
  rcases i with - | i
  · obtain rfl : g = "hom_alt" := by
      simpa [GENOTYPES] using hg.symm
    refine ⟨xLeft_eq 2, xRight_eq 2,
      ⟨ScatterCmd.mk (List.replicate (bucket counts "hom_alt").length (xLeft 2))
          ((bucket counts "hom_alt").map fun s => s.allele_1_count)
          "red" "o" 100, ?_, rfl, mem_zip_replicate _ _ hr⟩,
      ⟨ScatterCmd.mk (List.replicate (bucket counts "hom_alt").length (xRight 2))
          ((bucket counts "hom_alt").map fun s => s.allele_2_count)
          "red" "x" 100, ?_, rfl, mem_zip_replicate _ _ hr⟩,
      "red", ?_⟩
    · rw [create_plot_scatters]
      simp [allScatters, scatterPair]
    · rw [create_plot_scatters]
      simp [allScatters, scatterPair]
    · rw [create_plot_segments]
      simp only [allSegs]
      exact List.mem_append_right _ (mem_segsFor hr)
  · simp [GENOTYPES] at hg

/-- C7 witness: the first `EXAMPLE_DATA` sample in category index 0. -/
theorem sample_points_at_fixed_offsets_witness :
    (∀ p ∈ EXAMPLE_DATA, p.2.genotype ∈ GENOTYPES) ∧
    GENOTYPES.get? 0 = some "hom_ref" ∧
    Record.mk "hom_ref" 2 4 ∈ bucket EXAMPLE_DATA "hom_ref" ∧
    (xLeft 0 = 2 * ((0 : Nat) : ℚ) - 1/2 ∧
     xRight 0 = 2 * ((0 : Nat) : ℚ) + 1/2 ∧
     (∃ sc ∈ (create_plot EXAMPLE_DATA).2.1.scatters, sc.marker = "o" ∧
        (xLeft 0, (Record.mk "hom_ref" 2 4).allele_1_count) ∈
          sc.xs.zip sc.ys) ∧
     (∃ sc ∈ (create_plot EXAMPLE_DATA).2.1.scatters, sc.marker = "x" ∧
        (xRight 0, (Record.mk "hom_ref" 2 4).allele_2_count) ∈
          sc.xs.zip sc.ys) ∧
     ∃ c, SegCmd.mk (xLeft 0) (xRight 0)
          (Record.mk "hom_ref" 2 4).allele_1_count
          (Record.mk "hom_ref" 2 4).allele_2_count c ∈
        (create_plot EXAMPLE_DATA).2.1.segments) :=
  ⟨by decide, rfl, by decide,
   sample_points_at_fixed_offsets EXAMPLE_DATA (by decide) 0 "hom_ref" rfl
     (Record.mk "hom_ref" 2 4) (by decide)⟩

/-- C8.  Whenever `create_plot` completes, the chart file is written exactly
when `--save-plot` was given, to the fixed name `allele_count_graph.png` at
`dpi = 300`; without the flag nothing is written. -/
theorem savefig_iff_save_flag (args : Args) (counts : Dataset)
    (h : (create_plot counts).2.2 = none) :
    (mainWrites args counts = [("allele_count_graph.png", 300)] ↔
      args.save_plot = true) ∧
    (args.save_plot = false → mainWrites args counts = []) := by
  unfold mainWrites
  rw [h]
  constructor
  · cases hs : args.save_plot <;> simp
  · intro hs
    simp [hs]

/-- C8 witness: `EXAMPLE_DATA` with the flag set. -/
theorem savefig_iff_save_flag_witness :
    (create_plot EXAMPLE_DATA).2.2 = none ∧
    ((mainWrites (Args.mk none true) EXAMPLE_DATA =
        [("allele_count_graph.png", 300)] ↔
      (Args.mk none true).save_plot = true) ∧
     ((Args.mk none true).save_plot = false →
      mainWrites (Args.mk none true) EXAMPLE_DATA = [])) :=
  ⟨rfl, savefig_iff_save_flag (Args.mk none true) EXAMPLE_DATA rfl⟩

/-- C9.  `create_plot` only ever reads the dataset: the mapping the caller
observes after the call is the one it passed in. -/
theorem create_plot_preserves_dataset (counts : Dataset) :
    (create_plot counts).1 = counts := by
  rw [create_plot_eq]

/-- C10.  Whenever the axis-limit step is reached (any non-empty dataset),
the y-axis lower bound is the constant 0. -/
theorem ylim_lower_bound_zero (counts : Dataset) (hne : counts ≠ []) :
    ∃ u, (create_plot counts).2.1.ylim = some (0, u) := by
  obtain ⟨m, hm⟩ := max_value_isSome_of_ne_nil counts hne
  refine ⟨m + 10, ?_⟩
  rw [create_plot_eq, hm]
  simp [applyStyling]

/-- C10 witness at `EXAMPLE_DATA`. -/
theorem ylim_lower_bound_zero_witness :
    EXAMPLE_DATA ≠ [] ∧
    ∃ u, (create_plot EXAMPLE_DATA).2.1.ylim = some (0, u) :=
  ⟨by decide, ylim_lower_bound_zero EXAMPLE_DATA (by decide)⟩

end AlleleCountGraph
